import Mathlib

/-!
Verification development for the siteimprove-api-dci synchronization pipeline.

The definitions below are a shallow embedding of the JavaScript source:
  * the main incremental sweep of `part_002` (`fetchExistingRecords`,
    `insertScore`, `fetchAndInsertRecords`, `logErrorToDatabase`),
  * the historical backfill conditional patch of `historical-data-batch-v2.js`
    (the `UPDATE ada_scores ... WHERE ... site_target_score IS NULL` statement
    and the `targetEntry` timestamp normalization),
  * the retry helper `fetchWithExponentialBackoff` of `bulkinsert.js`.

Database statements are modelled on a store that is a list of rows; the
PostgreSQL semantics of `INSERT ... ON CONFLICT (sid, date) DO NOTHING` and of
the conditional `UPDATE` are made explicit.  JavaScript number values that can
be `NaN` are modelled with `JsNum`; `parseInt` / `parseFloat` are modelled as
executable functions on the decimal strings the pipeline actually feeds them.
-/

/-- A JavaScript number as produced by `parseFloat`: either `NaN` or a value
(decimals are modelled as rationals). -/
inductive JsNum where
  | nan : JsNum
  | val : Rat → JsNum
deriving DecidableEq, Repr

/-- Numeric value of a list of decimal digit characters (most significant
first), used by the `parseInt` / `parseFloat` models. -/
def digitsToNat (ds : List Char) : Nat :=
  ds.foldl (fun n c => 10 * n + (c.toNat - '0'.toNat)) 0

/-- Model of JavaScript `parseInt(s)` (radix 10): skip leading whitespace,
optional sign, then the longest prefix of decimal digits; `none` models the
`NaN` result when no digit is found.  Trailing junk is ignored, as in JS. -/
def parseIntJS (s : String) : Option Int :=
  let cs := s.data.dropWhile (fun c => c = ' ' ∨ c = '\t' ∨ c = '\n' ∨ c = '\r')
  let signAndRest : Int × List Char :=
    match cs with
    | '-' :: rest => (-1, rest)
    | '+' :: rest => (1, rest)
    | _ => (1, cs)
  let ds := signAndRest.2.takeWhile Char.isDigit
  if ds.isEmpty then none
  else some (signAndRest.1 * (digitsToNat ds : Int))

/-- Model of JavaScript `parseFloat(s)`: skip leading whitespace, optional
sign, integer digits, optional fraction digits; `JsNum.nan` when neither an
integer nor a fractional digit is present.  Trailing junk is ignored. -/
def parseFloatJS (s : String) : JsNum :=
  let cs := s.data.dropWhile (fun c => c = ' ' ∨ c = '\t' ∨ c = '\n' ∨ c = '\r')
  let signAndRest : Rat × List Char :=
    match cs with
    | '-' :: rest => (-1, rest)
    | '+' :: rest => (1, rest)
    | _ => (1, cs)
  let intDs := signAndRest.2.takeWhile Char.isDigit
  let afterInt := signAndRest.2.dropWhile Char.isDigit
  let fracDs :=
    match afterInt with
    | '.' :: rest => rest.takeWhile Char.isDigit
    | _ => []
  if intDs.isEmpty ∧ fracDs.isEmpty then JsNum.nan
  else JsNum.val (signAndRest.1 *
    ((digitsToNat intDs : Rat) + (digitsToNat fracDs : Rat) / ((10 : Rat) ^ fracDs.length)))

/-- A row of the `ada_scores` table.  The four compliance sub-scores and the
total come from `parseInt` and are `Option Int` (`none` models `NaN`); the
target score column is nullable (`none` models SQL `NULL`) and holds a
JavaScript number when present. -/
structure ScoreRecord where
  sid : Nat
  name : String
  url : String
  ada_a : Option Int
  ada_aa : Option Int
  ada_aaa : Option Int
  ada_aria : Option Int
  ada_score_total : Option Int
  site_target_score : Option JsNum
  date : String
deriving DecidableEq, Repr

/-- The composite key of a row at the SQL level: the uniqueness constraint of
`ada_scores` is `(sid, date)`. -/
def rowKey (r : ScoreRecord) : Nat × String := (r.sid, r.date)

/-- The string key used by the in-memory index, as built by
`fetchExistingRecords` and `insertScore` in `part_002`:
the template literal `${record.sid}-${record.date}`. -/
def stringKey (sid : Nat) (date : String) : String :=
  toString sid ++ "-" ++ date

/-- Model of `SELECT sid, date FROM ada_scores` materialized into the set of
composite string keys (`fetchExistingRecords` in `part_002`). -/
def fetchExistingRecords (store : List ScoreRecord) : List String :=
  store.map (fun r => stringKey r.sid r.date)

/-- Model of `INSERT INTO ada_scores ... ON CONFLICT (sid, date) DO NOTHING`:
if a row with the same `(sid, date)` exists the statement is a no-op with
`rowCount = 0`, otherwise the row is appended and `rowCount = 1`. -/
def insertOnConflict (r : ScoreRecord) (store : List ScoreRecord) :
    List ScoreRecord × Nat :=
  if store.any (fun x => x.sid = r.sid ∧ x.date = r.date) then (store, 0)
  else (store ++ [r], 1)

/-- Model of the backfill conditional update of `historical-data-batch-v2.js`:
`UPDATE ada_scores SET site_target_score = $1 WHERE sid = $2 AND date = $3 AND
site_target_score IS NULL`.  Returns the updated store and the number of rows
affected. -/
def patchTargetIfMissing (sid : Nat) (date : String) (score : Rat)
    (store : List ScoreRecord) : List ScoreRecord × Nat :=
  (store.map (fun r =>
      if r.sid = sid ∧ r.date = date ∧ r.site_target_score = none then
        { r with site_target_score := some (JsNum.val score) }
      else r),
   store.countP (fun r =>
      decide (r.sid = sid ∧ r.date = date ∧ r.site_target_score = none)))

/-- A pipeline write operation against the `ada_scores` store: the
insert-or-ignore issued by `insertScore`, or the backfill conditional patch. -/
inductive PipelineOp where
  | ins (r : ScoreRecord) : PipelineOp
  | patchTgt (sid : Nat) (date : String) (score : Rat) : PipelineOp

/-- Apply one pipeline write operation to the store. -/
def applyOp (store : List ScoreRecord) : PipelineOp → List ScoreRecord
  | PipelineOp.ins r => (insertOnConflict r store).1
  | PipelineOp.patchTgt sid date score => (patchTargetIfMissing sid date score store).1

/-- The store invariant: no two rows share the same `(sid, date)` key. -/
def uniqueKeys (store : List ScoreRecord) : Prop :=
  (store.map rowKey).Nodup

/-! ## Timestamp normalization (Score Collector, backfill variant) -/

/-- Replace the first occurrence of a character, as JavaScript
`String.prototype.replace` with a plain one-character pattern does. -/
def replaceFirstChar (c r : Char) : List Char → List Char
  | [] => []
  | x :: xs => if x = c then r :: xs else x :: replaceFirstChar c r xs

/-- Whitespace as stripped by JavaScript `String.prototype.trim` (the
characters occurring in this codebase's payloads). -/
def isWsChar (c : Char) : Bool := c = ' ' ∨ c = '\t' ∨ c = '\n' ∨ c = '\r'

/-- Model of JavaScript `String.prototype.trim`: drop leading and trailing
whitespace characters. -/
def trimChars (cs : List Char) : List Char :=
  ((cs.dropWhile isWsChar).reverse.dropWhile isWsChar).reverse

/-- Model of the timestamp normalization in `historical-data-batch-v2.js`:
`new Date(entry.timestamp.trim().replace(' ', 'T')).toISOString().split('T')[0]`,
for well-formed timestamps (`YYYY-MM-DD HH:MM:SS` or ISO) under a UTC runtime:
trim, turn the first space into `T`, and keep the characters before `T`. -/
def normalizeTimestamp (ts : String) : String :=
  String.mk ((replaceFirstChar ' ' 'T' (trimChars ts.data)).takeWhile (fun c => c ≠ 'T'))

/-- One entry of the site-target history payload. -/
structure HistEntry where
  timestamp : String
  site_target_percentage : String
deriving DecidableEq, Repr

/-- Model of the `targetEntry` selection of `historical-data-batch-v2.js`:
`items.find` of the first entry whose normalized timestamp equals the requested
calendar date. -/
def selectTargetEntry (items : List HistEntry) (dateStr : String) : Option HistEntry :=
  items.find? (fun e => normalizeTimestamp e.timestamp == dateStr)

/-- Model of the `todayTarget` selection of `part_002`:
`items.find(entry => entry.timestamp.startsWith(todayStr))`; `startsWith` is
modelled on the character lists of the two strings. -/
def selectTodayTarget (items : List HistEntry) (todayStr : String) : Option HistEntry :=
  items.find? (fun e => todayStr.data.isPrefixOf e.timestamp.data)

/-! ## Store-level lemmas -/

theorem insertOnConflict_uniqueKeys (r : ScoreRecord) (store : List ScoreRecord)
    (h : uniqueKeys store) : uniqueKeys (insertOnConflict r store).1 := by
  unfold insertOnConflict
  by_cases hc : store.any (fun x => x.sid = r.sid ∧ x.date = r.date) = true
  · rw [if_pos hc]
    exact h
  · rw [if_neg hc]
    have hc2 : ∀ x ∈ store, ¬(x.sid = r.sid ∧ x.date = r.date) := by
      intro x hx hcon
      exact hc (List.any_eq_true.mpr ⟨x, hx, by simpa using hcon⟩)
    unfold uniqueKeys at h ⊢
    rw [List.map_append, List.nodup_append]
    refine ⟨h, by simp, ?_⟩
    intro k hk hk2
    simp only [List.map_cons, List.map_nil, List.mem_singleton] at hk2
    subst hk2
    rcases List.mem_map.mp hk with ⟨x, hxmem, hxkey⟩
    have hxr : x.sid = r.sid ∧ x.date = r.date := by
      simpa [rowKey, Prod.ext_iff] using hxkey
    exact hc2 x hxmem hxr

theorem patchTargetIfMissing_map_rowKey (sid : Nat) (date : String) (score : Rat)
    (store : List ScoreRecord) :
    (patchTargetIfMissing sid date score store).1.map rowKey = store.map rowKey := by
  unfold patchTargetIfMissing
  simp only [List.map_map]
  apply List.map_congr_left
  intro r _
  by_cases hr : r.sid = sid ∧ r.date = date ∧ r.site_target_score = none
  · simp [hr, rowKey]
  · simp [hr]

theorem patchTargetIfMissing_uniqueKeys (sid : Nat) (date : String) (score : Rat)
    (store : List ScoreRecord) (h : uniqueKeys store) :
    uniqueKeys (patchTargetIfMissing sid date score store).1 := by
  unfold uniqueKeys
  rw [patchTargetIfMissing_map_rowKey]
  exact h

theorem applyOp_uniqueKeys (store : List ScoreRecord) (op : PipelineOp)
    (h : uniqueKeys store) : uniqueKeys (applyOp store op) := by
  cases op with
  | ins r => exact insertOnConflict_uniqueKeys r store h
  | patchTgt sid date score => exact patchTargetIfMissing_uniqueKeys sid date score store h

/-- C1: every state of the `ada_scores` store reachable by any sequence of
pipeline write operations (insert-or-ignore via `insertScore`, backfill
conditional patch) from a store with unique `(sid, date)` keys — in particular
from the empty store — again has at most one row per `(sid, date)` pair: the
insert no-ops on conflict and the patch never changes a row's key. -/
theorem c1_at_most_one_row_per_key (ops : List PipelineOp) (store : List ScoreRecord)
    (h : uniqueKeys store) : uniqueKeys (ops.foldl applyOp store) := by
  induction ops generalizing store with
  | nil => exact h
  | cons op rest ih =>
    exact ih (applyOp store op) (applyOp_uniqueKeys store op h)

/-- Witness for C1 at a concrete operation sequence: inserting the same row
twice and then patching, starting from the empty store, keeps keys unique. -/
theorem c1_at_most_one_row_per_key_witness :
    uniqueKeys ([] : List ScoreRecord) ∧
    uniqueKeys (List.foldl applyOp []
      [PipelineOp.ins ⟨1, "Site A", "https://a.example", some 90, some 80, some 70,
          some 60, some 75, none, "2025-06-15"⟩,
       PipelineOp.ins ⟨1, "Site A", "https://a.example", some 90, some 80, some 70,
          some 60, some 75, none, "2025-06-15"⟩,
       PipelineOp.patchTgt 1 "2025-06-15" 90]) :=
  ⟨by unfold uniqueKeys; decide,
   c1_at_most_one_row_per_key _ [] (by unfold uniqueKeys; decide)⟩

/-- C3: the backfill patch leaves every row whose target is already non-null
unchanged regardless of the new score passed, assigns a value only to
currently-null rows of the addressed key, and is idempotent: re-running the
same patch changes nothing and affects zero rows. -/
theorem c3_null_preserving_idempotent_patch :
    (∀ (sid : Nat) (date : String) (score : Rat) (store : List ScoreRecord)
        (i : Nat) (r : ScoreRecord) (v : JsNum),
        store[i]? = some r → r.site_target_score = some v →
        (patchTargetIfMissing sid date score store).1[i]? = some r) ∧
    (∀ (sid : Nat) (date : String) (score : Rat) (store : List ScoreRecord),
        patchTargetIfMissing sid date score (patchTargetIfMissing sid date score store).1 =
          ((patchTargetIfMissing sid date score store).1, 0)) := by
  constructor
  · intro sid date score store i r v hi hv
    unfold patchTargetIfMissing
    simp only [List.getElem?_map, hi, Option.map_some']
    have hno : ¬(r.sid = sid ∧ r.date = date ∧ r.site_target_score = none) := by
      rintro ⟨-, -, hnone⟩
      rw [hv] at hnone
      cases hnone
    rw [if_neg hno]
  · intro sid date score store
    unfold patchTargetIfMissing
    refine Prod.ext ?_ ?_
    · simp only
      rw [List.map_map]
      apply List.map_congr_left
      intro r _
      by_cases hr : r.sid = sid ∧ r.date = date ∧ r.site_target_score = none
      · simp [hr]
      · simp [hr]
    · simp only
      rw [List.countP_eq_zero]
      intro a ha
      rcases List.mem_map.mp ha with ⟨r, _, rfl⟩
      by_cases hr : r.sid = sid ∧ r.date = date ∧ r.site_target_score = none
      · simp [hr]
      · simp only [if_neg hr, decide_eq_true_eq]
        exact hr

/-- Witness for C3 at a concrete store: a row whose target is already `88`
is untouched by a patch that passes `50`. -/
theorem c3_null_preserving_idempotent_patch_witness :
    ([(⟨1, "Site A", "https://a.example", some 90, some 80, some 70, some 60,
        some 75, some (JsNum.val 88), "2025-06-15"⟩ : ScoreRecord)][0]? =
      some ⟨1, "Site A", "https://a.example", some 90, some 80, some 70, some 60,
        some 75, some (JsNum.val 88), "2025-06-15"⟩) ∧
    ((⟨1, "Site A", "https://a.example", some 90, some 80, some 70, some 60,
        some 75, some (JsNum.val 88), "2025-06-15"⟩ : ScoreRecord).site_target_score =
      some (JsNum.val 88)) ∧
    ((patchTargetIfMissing 1 "2025-06-15" 50
        [⟨1, "Site A", "https://a.example", some 90, some 80, some 70, some 60,
          some 75, some (JsNum.val 88), "2025-06-15"⟩]).1[0]? =
      some ⟨1, "Site A", "https://a.example", some 90, some 80, some 70, some 60,
        some 75, some (JsNum.val 88), "2025-06-15"⟩) :=
  ⟨rfl, rfl,
   c3_null_preserving_idempotent_patch.1 1 "2025-06-15" 50 _ 0 _ (JsNum.val 88) rfl rfl⟩

/-! ## C6: date reconciliation -/

theorem find?_first_split {α : Type} (p : α → Bool) :
    ∀ (l : List α) (a : α), l.find? p = some a →
      p a = true ∧ ∃ pre suf, l = pre ++ a :: suf ∧ ∀ x ∈ pre, p x = false := by
  intro l
  induction l with
  | nil =>
    intro a h
    simp [List.find?] at h
  | cons x xs ih =>
    intro a h
    by_cases hx : p x = true
    · rw [List.find?_cons_of_pos _ hx] at h
      injection h with h
      subst h
      exact ⟨hx, [], xs, rfl, by intro y hy; simp at hy⟩
    · simp only [Bool.not_eq_true] at hx
      rw [List.find?_cons_of_neg _ (by simp [hx])] at h
      obtain ⟨hpa, pre, suf, hsplit, hpre⟩ := ih a h
      refine ⟨hpa, x :: pre, suf, by rw [hsplit]; rfl, ?_⟩
      intro y hy
      rcases List.mem_cons.mp hy with rfl | hy2
      · exact hx
      · exact hpre y hy2

/-- C6: on a history list with entries timestamped `2025-06-14 00:00:00` and
`2025-06-15 00:00:00`, requesting target date `2025-06-15` selects exactly the
second entry (both for the backfill normalizer and for the incremental
`startsWith` variant); in general the collector selects the first entry whose
normalized calendar date equals the requested date, and no earlier entry
matches. -/
theorem c6_date_reconciliation :
    (selectTargetEntry
        [⟨"2025-06-14 00:00:00", "78"⟩, ⟨"2025-06-15 00:00:00", "80"⟩]
        "2025-06-15" = some ⟨"2025-06-15 00:00:00", "80"⟩) ∧
    (selectTodayTarget
        [⟨"2025-06-14 00:00:00", "78"⟩, ⟨"2025-06-15 00:00:00", "80"⟩]
        "2025-06-15" = some ⟨"2025-06-15 00:00:00", "80"⟩) ∧
    (∀ (items : List HistEntry) (d : String) (e : HistEntry),
        selectTargetEntry items d = some e →
        normalizeTimestamp e.timestamp = d ∧
        ∃ pre suf, items = pre ++ e :: suf ∧
          ∀ x ∈ pre, normalizeTimestamp x.timestamp ≠ d) := by
  refine ⟨by decide, by decide, ?_⟩
  intro items d e h
  obtain ⟨hpa, pre, suf, hsplit, hpre⟩ := find?_first_split _ items e h
  refine ⟨by simpa using hpa, pre, suf, hsplit, ?_⟩
  intro x hx hcon
  have hfalse := hpre x hx
  rw [hcon] at hfalse
  simp at hfalse

/-- Witness for C6: the general first-match property applied to the concrete
two-entry history list. -/
theorem c6_date_reconciliation_witness :
    (selectTargetEntry
        [⟨"2025-06-14 00:00:00", "78"⟩, ⟨"2025-06-15 00:00:00", "80"⟩]
        "2025-06-15" = some ⟨"2025-06-15 00:00:00", "80"⟩) ∧
    (normalizeTimestamp "2025-06-15 00:00:00" = "2025-06-15" ∧
      ∃ pre suf,
        [(⟨"2025-06-14 00:00:00", "78"⟩ : HistEntry), ⟨"2025-06-15 00:00:00", "80"⟩] =
          pre ++ (⟨"2025-06-15 00:00:00", "80"⟩ : HistEntry) :: suf ∧
        ∀ x ∈ pre, normalizeTimestamp x.timestamp ≠ "2025-06-15") :=
  ⟨c6_date_reconciliation.1,
   c6_date_reconciliation.2.2 _ _ _ c6_date_reconciliation.1⟩

/-! ## Rate-Limited Fetcher (`fetchWithExponentialBackoff`) -/

/-- Outcome of one `axios.get` attempt: a successful response (payload
abstracted to a `Nat` handle), an HTTP error response carrying its status code
and the optional server `Retry-After` delay in seconds (modelled already
parsed), or an error with no response object (network failure). -/
inductive AxiosOutcome where
  | success : Nat → AxiosOutcome
  | httpError : Nat → Option Nat → AxiosOutcome
  | networkError : String → AxiosOutcome
deriving DecidableEq, Repr

/-- Result of `fetchWithExponentialBackoff`: a returned response, an error
propagated unchanged to the caller, or the `Max retries exceeded` error thrown
once the bounded retry count is exhausted. -/
inductive FetchResult where
  | ok : Nat → FetchResult
  | failed : AxiosOutcome → FetchResult
  | maxRetriesExceeded : FetchResult
deriving DecidableEq, Repr

/-- The retry condition of the source: `error.response && error.response.status === 429`. -/
def is429 : AxiosOutcome → Bool
  | AxiosOutcome.httpError status _ => status == 429
  | _ => false

/-- Model of `fetchWithExponentialBackoff(url, options, retries = 5, delay = 1000)`
from `bulkinsert.js` / `part_003`.  The first `Nat` argument is the number of
loop iterations left, the second the 1-based attempt counter, the third the
current `delay`; `outcomes` gives the behavior of `axios.get` on each attempt.
Returns the result together with the list of wait times (ms) slept:
on a 429 the wait is the parsed `Retry-After` seconds times 1000 when the
header is present, else `delay`, and `delay` doubles after the iteration. -/
def fetchWithExponentialBackoff (outcomes : Nat → AxiosOutcome) :
    Nat → Nat → Nat → FetchResult × List Nat
  | 0, _, _ => (FetchResult.maxRetriesExceeded, [])
  | fuel + 1, attempt, delay =>
      match outcomes attempt with
      | AxiosOutcome.success r => (FetchResult.ok r, [])
      | AxiosOutcome.httpError status retryAfter =>
          if status = 429 then
            let waitTime : Nat :=
              match retryAfter with
              | some s => s * 1000
              | none => delay
            let rest := fetchWithExponentialBackoff outcomes fuel (attempt + 1) (delay * 2)
            (rest.1, waitTime :: rest.2)
          else (FetchResult.failed (AxiosOutcome.httpError status retryAfter), [])
      | AxiosOutcome.networkError m =>
          (FetchResult.failed (AxiosOutcome.networkError m), [])

/-- C4: only a 429 response is retried.  A non-429 HTTP error or a
response-less error on an attempt makes the function propagate exactly that
error at once, with no wait and regardless of the remaining retry budget; and
when every attempt up to the retry count is rate-limited the function ends
with the max-retries error instead of a response (the default count is 5). -/
theorem c4_retry_only_on_rate_limit :
    (∀ (outcomes : Nat → AxiosOutcome) (fuel attempt delay status : Nat)
        (retryAfter : Option Nat),
        status ≠ 429 →
        outcomes attempt = AxiosOutcome.httpError status retryAfter →
        fetchWithExponentialBackoff outcomes (fuel + 1) attempt delay =
          (FetchResult.failed (AxiosOutcome.httpError status retryAfter), [])) ∧
    (∀ (outcomes : Nat → AxiosOutcome) (fuel attempt delay : Nat) (m : String),
        outcomes attempt = AxiosOutcome.networkError m →
        fetchWithExponentialBackoff outcomes (fuel + 1) attempt delay =
          (FetchResult.failed (AxiosOutcome.networkError m), [])) ∧
    (∀ (outcomes : Nat → AxiosOutcome) (retries attempt delay : Nat),
        (∀ i, attempt ≤ i → i < attempt + retries → is429 (outcomes i) = true) →
        (fetchWithExponentialBackoff outcomes retries attempt delay).1 =
          FetchResult.maxRetriesExceeded) := by
  refine ⟨?_, ?_, ?_⟩
  · intro outcomes fuel attempt delay status retryAfter hs ho
    unfold fetchWithExponentialBackoff
    rw [ho]
    simp [hs]
  · intro outcomes fuel attempt delay m ho
    unfold fetchWithExponentialBackoff
    rw [ho]
  · intro outcomes retries
    induction retries with
    | zero => intro attempt delay _; rfl
    | succ n ih =>
      intro attempt delay h
      have h1 : is429 (outcomes attempt) = true := h attempt le_rfl (by omega)
      cases ho : outcomes attempt with
      | success r => rw [ho] at h1; simp [is429] at h1
      | networkError m => rw [ho] at h1; simp [is429] at h1
      | httpError s ra =>
        rw [ho] at h1
        have hs : s = 429 := by simpa [is429] using h1
        subst hs
        unfold fetchWithExponentialBackoff
        rw [ho]
        simp only [if_pos rfl]
        exact ih (attempt + 1) (delay * 2) (fun i hi1 hi2 => h i (by omega) (by omega))

/-- Witness for C4: a 500 response on the first attempt propagates at once. -/
theorem c4_retry_only_on_rate_limit_witness :
    ((500 : Nat) ≠ 429) ∧
    ((fun _ => AxiosOutcome.httpError 500 none) 1 = AxiosOutcome.httpError 500 none) ∧
    (fetchWithExponentialBackoff (fun _ => AxiosOutcome.httpError 500 none) 5 1 1000 =
      (FetchResult.failed (AxiosOutcome.httpError 500 none), [])) :=
  ⟨by decide, rfl,
   c4_retry_only_on_rate_limit.1 (fun _ => AxiosOutcome.httpError 500 none)
     4 1 1000 500 none (by decide) rfl⟩

/-! ## C5: backoff monotonicity -/

theorem backoff_waits_geometric (outcomes : Nat → AxiosOutcome) :
    ∀ (fuel attempt delay : Nat),
      (∀ i, attempt ≤ i → i < attempt + fuel →
        outcomes i = AxiosOutcome.httpError 429 none) →
      (fetchWithExponentialBackoff outcomes fuel attempt delay).2 =
        (List.range fuel).map (fun k => delay * 2 ^ k) := by
  intro fuel
  induction fuel with
  | zero => intro attempt delay _; rfl
  | succ n ih =>
    intro attempt delay h
    have h1 : outcomes attempt = AxiosOutcome.httpError 429 none :=
      h attempt le_rfl (by omega)
    unfold fetchWithExponentialBackoff
    rw [h1]
    simp only [if_pos rfl]
    rw [ih (attempt + 1) (delay * 2) (fun i hi1 hi2 => h i (by omega) (by omega))]
    rw [List.range_succ_eq_map, List.map_cons, List.map_map]
    refine congrArg₂ List.cons (by simp) ?_
    apply List.map_congr_left
    intro k _
    simp only [Function.comp_apply, pow_succ]
    ring

theorem backoff_waits_length_le (outcomes : Nat → AxiosOutcome) :
    ∀ (fuel attempt delay : Nat),
      (fetchWithExponentialBackoff outcomes fuel attempt delay).2.length ≤ fuel := by
  intro fuel
  induction fuel with
  | zero => intro _ _; simp [fetchWithExponentialBackoff]
  | succ n ih =>
    intro attempt delay
    cases ho : outcomes attempt with
    | success r => simp [fetchWithExponentialBackoff, ho]
    | networkError m => simp [fetchWithExponentialBackoff, ho]
    | httpError s ra =>
      by_cases hs : s = 429
      · subst hs
        simp only [fetchWithExponentialBackoff, ho, if_pos rfl, List.length_cons]
        exact Nat.succ_le_succ (ih (attempt + 1) (delay * 2))
      · simp [fetchWithExponentialBackoff, ho, hs]

theorem range_map_getD (f : Nat → Nat) (n k : Nat) (hk : k < n) :
    ((List.range n).map f).getD k 0 = f k := by
  rw [List.getD_eq_getElem?_getD, List.getElem?_map, List.getElem?_range hk]
  rfl

/-- C5: for consecutive rate-limit responses carrying no `Retry-After` header,
the wait times produced are exactly the doubling sequence from the 1000 ms
base — so each wait is twice the previous one and the sequence is
non-decreasing — and on any outcome sequence at most `retries` waits occur. -/
theorem c5_backoff_monotonicity :
    (∀ (outcomes : Nat → AxiosOutcome) (retries : Nat),
        (∀ i, 1 ≤ i → i < 1 + retries →
          outcomes i = AxiosOutcome.httpError 429 none) →
        (fetchWithExponentialBackoff outcomes retries 1 1000).2 =
          (List.range retries).map (fun k => 1000 * 2 ^ k)) ∧
    (∀ (outcomes : Nat → AxiosOutcome) (retries : Nat),
        (∀ i, 1 ≤ i → i < 1 + retries →
          outcomes i = AxiosOutcome.httpError 429 none) →
        ∀ k, k + 1 < retries →
          (fetchWithExponentialBackoff outcomes retries 1 1000).2.getD (k + 1) 0 =
            2 * (fetchWithExponentialBackoff outcomes retries 1 1000).2.getD k 0 ∧
          (fetchWithExponentialBackoff outcomes retries 1 1000).2.getD k 0 ≤
            (fetchWithExponentialBackoff outcomes retries 1 1000).2.getD (k + 1) 0) ∧
    (∀ (outcomes : Nat → AxiosOutcome) (retries attempt delay : Nat),
        (fetchWithExponentialBackoff outcomes retries attempt delay).2.length ≤ retries) := by
  refine ⟨?_, ?_, ?_⟩
  · intro outcomes retries h
    exact backoff_waits_geometric outcomes retries 1 1000 h
  · intro outcomes retries h k hk
    rw [backoff_waits_geometric outcomes retries 1 1000 h]
    rw [range_map_getD _ _ _ hk, range_map_getD _ _ _ (by omega)]
    constructor
    · rw [pow_succ]
      ring
    · have : (2 : Nat) ^ k ≤ 2 ^ (k + 1) :=
        Nat.pow_le_pow_right (by omega) (by omega)
      omega
  · intro outcomes retries attempt delay
    exact backoff_waits_length_le outcomes retries attempt delay

/-- Witness for C5: five consecutive header-less 429s from the default budget
produce the waits 1000, 2000, 4000, 8000, 16000. -/
theorem c5_backoff_monotonicity_witness :
    (∀ i, 1 ≤ i → i < 1 + 5 →
      (fun _ => AxiosOutcome.httpError 429 none) i = AxiosOutcome.httpError 429 none) ∧
    (fetchWithExponentialBackoff (fun _ => AxiosOutcome.httpError 429 none) 5 1 1000).2 =
      [1000, 2000, 4000, 8000, 16000] :=
  ⟨fun i h1 h2 => rfl,
   (c5_backoff_monotonicity.1 (fun _ => AxiosOutcome.httpError 429 none) 5
      (fun i h1 h2 => rfl)).trans (by decide)⟩

/-! ## Incremental sweep (`part_002`) -/

/-- Run statistics accumulated by `fetchAndInsertRecords` in `part_002`. -/
structure Stats where
  sitesPulled : Nat
  processed : Nat
  inserted : Nat
  skippedExisting : Nat
  targetInfoNotes : Nat
  targetErrors : Nat
  insertErrors : Nat
deriving DecidableEq, Repr

/-- The all-zero statistics the sweep starts from. -/
def zeroStats : Stats := ⟨0, 0, 0, 0, 0, 0, 0⟩

/-- A row of the `error_logs` table as written by `logErrorToDatabase`. -/
structure ErrorLogEntry where
  site_id : Option Nat
  site_name : Option String
  message : String
  level : String
deriving DecidableEq, Repr

/-- State threaded through one incremental sweep: the in-memory
existing-record key set, the statistics counters, the `ada_scores` store and
the `error_logs` store. -/
structure RunState where
  ex : List String
  stats : Stats
  store : List ScoreRecord
  log : List ErrorLogEntry
deriving DecidableEq, Repr

/-- Directory metadata of one site as returned by the `/v2/sites` listing. -/
structure SiteMeta where
  id : Nat
  site_name : String
  url : String
  product : List String
deriving DecidableEq, Repr

/-- The `a11y` object of a `dci/overview` response; the five fields are the
raw payload values fed to `parseInt`, modelled as decimal strings. -/
structure OverviewPayload where
  a : String
  aa : String
  aaa : String
  aria : String
  total : String
deriving DecidableEq, Repr

/-- Result of one upstream call: the parsed payload, or a thrown error with
its message. -/
inductive Fetch (α : Type) where
  | ok : α → Fetch α
  | err : String → Fetch α
deriving DecidableEq, Repr

/-- One site together with the behavior of the upstream and of the database
while it is processed: the `dci/overview` response, the target-history
response, and the behavior of the `ada_scores` INSERT (`none` models success,
`some m` a database error thrown with message `m`). -/
structure SiteUpstream where
  site : SiteMeta
  overview : Fetch OverviewPayload
  targetHist : Fetch (List HistEntry)
  insertDb : Option String
deriving DecidableEq, Repr

/-- Model of `insertScore(record, existingRecords, counters)` from `part_002`:
check the in-memory key set first and skip without touching the database;
otherwise run the insert-or-ignore statement, counting an insert (and adding
the key to the in-memory set), a conflict skip, or — when the database call
throws — an insert error, which is also logged by `logErrorToDatabase` (the
error-log write is modelled as succeeding).  The source's boolean return value
is unused by its caller and omitted. -/
def insertScore (dbErr : Option String) (record : ScoreRecord) (st : RunState) :
    RunState :=
  let key := stringKey record.sid record.date
  if key ∈ st.ex then
    { st with stats := { st.stats with skippedExisting := st.stats.skippedExisting + 1 } }
  else
    match dbErr with
    | none =>
        let res := insertOnConflict record st.store
        if res.2 > 0 then
          { st with
            store := res.1
            ex := st.ex ++ [key]
            stats := { st.stats with inserted := st.stats.inserted + 1 } }
        else
          { st with stats :=
              { st.stats with skippedExisting := st.stats.skippedExisting + 1 } }
    | some m =>
        { st with
          stats := { st.stats with insertErrors := st.stats.insertErrors + 1 },
          log := st.log ++ [⟨some record.sid, some record.name, m, "ERROR"⟩] }

/-- The target-history step of `fetchAndInsertRecords` (`part_002`): fetch the
site-target history; on success select today's entry by `startsWith` and parse
it with `parseFloat`; a missing entry or a fetch error yields a null target
plus an INFO log entry and the corresponding counter increment. -/
def targetStep (today : String) (su : SiteUpstream) (stats : Stats)
    (log : List ErrorLogEntry) : Option JsNum × Stats × List ErrorLogEntry :=
  match su.targetHist with
  | Fetch.err e =>
      (none, { stats with targetErrors := stats.targetErrors + 1 },
       log ++ [⟨some su.site.id, some su.site.site_name,
         "Target score fetch error: " ++ e, "INFO"⟩])
  | Fetch.ok items =>
      match selectTodayTarget items today with
      | some entry => (some (parseFloatJS entry.site_target_percentage), stats, log)
      | none =>
          (none, { stats with targetInfoNotes := stats.targetInfoNotes + 1 },
           log ++ [⟨some su.site.id, some su.site.site_name,
             "No site_target_percentage entry for today", "INFO"⟩])

/-- The record construction of `fetchAndInsertRecords` (`part_002`):
destructure the `a11y` payload, `parseInt` the five scores, and carry the
target value and today's date. -/
def buildRecord (site : SiteMeta) (p : OverviewPayload) (siteTarget : Option JsNum)
    (today : String) : ScoreRecord :=
  ⟨site.id, site.site_name, site.url, parseIntJS p.a, parseIntJS p.aa,
   parseIntJS p.aaa, parseIntJS p.aria, parseIntJS p.total, siteTarget, today⟩

/-- Processing of one site inside the batch loop of `fetchAndInsertRecords`
(`part_002`): count it processed; an overview-fetch failure is caught at the
site boundary and becomes a WARNING log entry (the sweep moves on); otherwise
run the best-effort target step, build the record and insert it. -/
def processSite (today : String) (st : RunState) (su : SiteUpstream) : RunState :=
  let st1 : RunState :=
    { st with stats := { st.stats with processed := st.stats.processed + 1 } }
  match su.overview with
  | Fetch.err e =>
      { st1 with log := st1.log ++ [⟨some su.site.id, some su.site.site_name,
          "Approved site failed during processing: " ++ e, "WARNING"⟩] }
  | Fetch.ok p =>
      let t := targetStep today su st1.stats st1.log
      insertScore su.insertDb (buildRecord su.site p t.1 today)
        { st1 with stats := t.2.1, log := t.2.2 }

/-- Fuel-driven chunking; the fuel is an upper bound on the list length so the
definition is structural and computable by the kernel. -/
def chunk20Aux {α : Type} : Nat → List α → List (List α)
  | _, [] => []
  | 0, _ :: _ => []
  | fuel + 1, x :: xs => ((x :: xs).take 20) :: chunk20Aux fuel ((x :: xs).drop 20)

/-- The batch slicing `for (let i = 0; i < sites.length; i += 20)` of
`fetchAndInsertRecords`: split the site list into consecutive chunks of 20. -/
def chunk20 {α : Type} (l : List α) : List (List α) := chunk20Aux l.length l

/-- Model of `fetchAndInsertRecords` (`part_002`) *after a successful
existing-record index load*: list the sites (a directory failure is logged as
a General API Error and rethrown — fatal to the sweep), filter to
accessibility-enabled sites, then process them one at a time in batches of 20
(the batch boundary only emits a memory-usage log and has no effect on
state).  The index-load query itself is unguarded in the source and awaited
before the try block; that fallible step is modelled by
`fetchAndInsertRecordsFull` below. -/
def fetchAndInsertRecords (today : String) (dir : Fetch (List SiteUpstream))
    (store : List ScoreRecord) (log : List ErrorLogEntry) :
    Except String Stats × RunState :=
  let st0 : RunState := ⟨fetchExistingRecords store, zeroStats, store, log⟩
  match dir with
  | Fetch.err e =>
      (Except.error e,
       { st0 with log := st0.log ++ [⟨none, some "General API Error", e, "ERROR"⟩] })
  | Fetch.ok items =>
      let sites := items.filter (fun su => su.site.product.contains "accessibility")
      let st1 : RunState :=
        { st0 with stats := { st0.stats with sitesPulled := sites.length } }
      let fin := (chunk20 sites).foldl
        (fun st batch => batch.foldl (processSite today) st) st1
      (Except.ok fin.stats, fin)

/-! ## Error Sink (`logErrorToDatabase`) -/

/-- Model of the raw `pool.query('INSERT INTO error_logs ...')` call inside
`logErrorToDatabase`: appends the entry, or throws (`db = some m` models a
query that fails with message `m`). -/
def errorLogInsert (db : Option String) (siteId : Option Nat)
    (siteName : Option String) (message level : String)
    (log : List ErrorLogEntry) : Except String (List ErrorLogEntry) :=
  match db with
  | none => Except.ok (log ++ [⟨siteId, siteName, message, level⟩])
  | some m => Except.error m

/-- Model of `logErrorToDatabase(siteId, siteName, errorMessage, level = 'ERROR')`
from `part_002` / `app.js`: the INSERT is wrapped in try/catch and a failure
is only written to the console, so the function itself returns normally on
every input. -/
def logErrorToDatabase (db : Option String) (siteId : Option Nat)
    (siteName : Option String) (message level : String)
    (log : List ErrorLogEntry) : Except String (List ErrorLogEntry) :=
  match errorLogInsert db siteId siteName message level log with
  | Except.ok l => Except.ok l
  | Except.error _ => Except.ok log

/-! ## Sweep lemmas -/

theorem chunk20Aux_foldl {α β : Type} (f : β → α → β) :
    ∀ (fuel : Nat) (l : List α) (st : β), l.length ≤ fuel →
      (chunk20Aux fuel l).foldl (fun s batch => batch.foldl f s) st = l.foldl f st := by
  intro fuel
  induction fuel with
  | zero =>
    intro l st h
    cases l with
    | nil => rfl
    | cons x xs => simp at h
  | succ n ih =>
    intro l st h
    cases l with
    | nil => rfl
    | cons x xs =>
      rw [chunk20Aux, List.foldl_cons,
        ih ((x :: xs).drop 20) _
          (by simp only [List.length_drop, List.length_cons]
              simp only [List.length_cons] at h
              omega),
        ← List.foldl_append, List.take_append_drop]

theorem chunk20_foldl {α β : Type} (f : β → α → β) (l : List α) (st : β) :
    (chunk20 l).foldl (fun s batch => batch.foldl f s) st = l.foldl f st :=
  chunk20Aux_foldl f l.length l st le_rfl

/-- C10: `logErrorToDatabase` never raises to its caller: for every input and
every database behavior it returns normally — with the entry appended when the
INSERT succeeds, and with the log unchanged (the entry silently lost) when the
INSERT throws, so error logging is best-effort, not guaranteed durable. -/
theorem c10_log_error_never_raises (db : Option String) (siteId : Option Nat)
    (siteName : Option String) (message level : String) (log : List ErrorLogEntry) :
    (∃ l, logErrorToDatabase db siteId siteName message level log = Except.ok l) ∧
    (db = none →
      logErrorToDatabase db siteId siteName message level log =
        Except.ok (log ++ [⟨siteId, siteName, message, level⟩])) ∧
    (∀ m, db = some m →
      logErrorToDatabase db siteId siteName message level log = Except.ok log) := by
  refine ⟨?_, ?_, ?_⟩
  · cases db with
    | none =>
      exact ⟨log ++ [⟨siteId, siteName, message, level⟩],
        by simp [logErrorToDatabase, errorLogInsert]⟩
    | some m => exact ⟨log, by simp [logErrorToDatabase, errorLogInsert]⟩
  · intro hdb
    subst hdb
    simp [logErrorToDatabase, errorLogInsert]
  · intro m hm
    subst hm
    simp [logErrorToDatabase, errorLogInsert]

/-- Witness for C10: a failing error-log INSERT still returns normally. -/
theorem c10_log_error_never_raises_witness :
    (∃ l, logErrorToDatabase (some "connection reset") (some 7) (some "Site A")
        "boom" "ERROR" [] = Except.ok l) ∧
    ((some "connection reset" : Option String) = none →
      logErrorToDatabase (some "connection reset") (some 7) (some "Site A")
          "boom" "ERROR" [] =
        Except.ok ([] ++ [⟨some 7, some "Site A", "boom", "ERROR"⟩])) ∧
    (∀ m, (some "connection reset" : Option String) = some m →
      logErrorToDatabase (some "connection reset") (some 7) (some "Site A")
          "boom" "ERROR" [] = Except.ok []) :=
  c10_log_error_never_raises (some "connection reset") (some 7) (some "Site A")
    "boom" "ERROR" []

/-- C7: when a site's overview fetch succeeds, a target-history failure or the
absence of an entry matching today does not abort the site: the sweep still
hands the writer `insertScore` the site's record with a null
`site_target_score`, an INFO entry is recorded, and the corresponding counter
(`targetErrors` for a fetch failure, `targetInfoNotes` for a missing entry) is
incremented. -/
theorem c7_target_miss_is_soft (today : String) (st : RunState) (su : SiteUpstream)
    (p : OverviewPayload) (hov : su.overview = Fetch.ok p) :
    (∀ e, su.targetHist = Fetch.err e →
      processSite today st su =
        insertScore su.insertDb (buildRecord su.site p none today)
          { st with
            stats := { st.stats with
              processed := st.stats.processed + 1
              targetErrors := st.stats.targetErrors + 1 }
            log := st.log ++ [⟨some su.site.id, some su.site.site_name,
              "Target score fetch error: " ++ e, "INFO"⟩] }) ∧
    (∀ items, su.targetHist = Fetch.ok items →
      selectTodayTarget items today = none →
      processSite today st su =
        insertScore su.insertDb (buildRecord su.site p none today)
          { st with
            stats := { st.stats with
              processed := st.stats.processed + 1
              targetInfoNotes := st.stats.targetInfoNotes + 1 }
            log := st.log ++ [⟨some su.site.id, some su.site.site_name,
              "No site_target_percentage entry for today", "INFO"⟩] }) := by
  constructor
  · intro e he
    simp [processSite, hov, targetStep, he]
  · intro items hi hsel
    simp [processSite, hov, targetStep, hi, hsel]

/-- Witness for C7: a site whose target-history fetch throws still reaches the
writer with a null target, an INFO log entry and a `targetErrors` increment. -/
theorem c7_target_miss_is_soft_witness :
    ((⟨⟨3, "Site C", "https://c.example", ["accessibility"]⟩,
        Fetch.ok ⟨"90", "80", "70", "60", "75"⟩, Fetch.err "timeout",
        none⟩ : SiteUpstream).overview = Fetch.ok ⟨"90", "80", "70", "60", "75"⟩) ∧
    (processSite "2025-06-15" ⟨[], zeroStats, [], []⟩
        ⟨⟨3, "Site C", "https://c.example", ["accessibility"]⟩,
         Fetch.ok ⟨"90", "80", "70", "60", "75"⟩, Fetch.err "timeout", none⟩ =
      insertScore none
        (buildRecord ⟨3, "Site C", "https://c.example", ["accessibility"]⟩
          ⟨"90", "80", "70", "60", "75"⟩ none "2025-06-15")
        ⟨[], { zeroStats with
                processed := 1
                targetErrors := 1 },
         [], [⟨some 3, some "Site C", "Target score fetch error: timeout", "INFO"⟩]⟩) :=
  ⟨rfl, by
    have h := (c7_target_miss_is_soft "2025-06-15" ⟨[], zeroStats, [], []⟩
      ⟨⟨3, "Site C", "https://c.example", ["accessibility"]⟩,
       Fetch.ok ⟨"90", "80", "70", "60", "75"⟩, Fetch.err "timeout", none⟩
      ⟨"90", "80", "70", "60", "75"⟩ rfl).1 "timeout" rfl
    exact h⟩

/-- C8 counterexample: the code has no `ScoreParseError`.  For a site whose
overview field `a` is the unparsable string `abc`, the sweep builds the record
with a NaN (`none`) compliance score and passes it to the writer, which even
persists it — so a record carrying an unparsable compliance score does reach
the writer. -/
theorem c8_parse_failure_reaches_writer_counterexample :
    parseIntJS "abc" = none ∧
    (processSite "2025-06-15" ⟨[], zeroStats, [], []⟩
        ⟨⟨4, "Site D", "https://d.example", ["accessibility"]⟩,
         Fetch.ok ⟨"abc", "50", "40", "30", "70"⟩, Fetch.ok [], none⟩).store =
      [⟨4, "Site D", "https://d.example", none, some 50, some 40, some 30, some 70,
        none, "2025-06-15"⟩] := by
  constructor
  · rfl
  · decide

/-- C8 (amended): a payload value that does not parse as an integer is not a
hard failure: the site is not aborted and no `ScoreParseError` is raised — the
record is built with a NaN (`none`) compliance score and is still passed to
the writer; a failure can surface only later as a database insert error. -/
theorem c8_parse_failure_not_aborting (today : String) (st : RunState)
    (su : SiteUpstream) (p : OverviewPayload) (hov : su.overview = Fetch.ok p)
    (ha : parseIntJS p.a = none) :
    ∃ tgt stats2 log2,
      processSite today st su =
        insertScore su.insertDb (buildRecord su.site p tgt today)
          ⟨st.ex, stats2, st.store, log2⟩ ∧
      (buildRecord su.site p tgt today).ada_a = none := by
  refine ⟨(targetStep today su
      { st.stats with processed := st.stats.processed + 1 } st.log).1,
    (targetStep today su
      { st.stats with processed := st.stats.processed + 1 } st.log).2.1,
    (targetStep today su
      { st.stats with processed := st.stats.processed + 1 } st.log).2.2, ?_, ?_⟩
  · simp [processSite, hov]
  · simp [buildRecord, ha]

/-- Witness for C8 (amended): the concrete unparsable-score site is handed to
the writer with a NaN score. -/
theorem c8_parse_failure_not_aborting_witness :
    ((⟨⟨4, "Site D", "https://d.example", ["accessibility"]⟩,
        Fetch.ok ⟨"abc", "50", "40", "30", "70"⟩, Fetch.ok [],
        none⟩ : SiteUpstream).overview = Fetch.ok ⟨"abc", "50", "40", "30", "70"⟩) ∧
    parseIntJS "abc" = none ∧
    (∃ tgt stats2 log2,
      processSite "2025-06-15" ⟨["1-2025-06-15"], zeroStats, [], []⟩
          ⟨⟨4, "Site D", "https://d.example", ["accessibility"]⟩,
           Fetch.ok ⟨"abc", "50", "40", "30", "70"⟩, Fetch.ok [], none⟩ =
        insertScore none
          (buildRecord ⟨4, "Site D", "https://d.example", ["accessibility"]⟩
            ⟨"abc", "50", "40", "30", "70"⟩ tgt "2025-06-15")
          ⟨["1-2025-06-15"], stats2, [], log2⟩ ∧
      (buildRecord ⟨4, "Site D", "https://d.example", ["accessibility"]⟩
        ⟨"abc", "50", "40", "30", "70"⟩ tgt "2025-06-15").ada_a = none) :=
  ⟨rfl, rfl,
   c8_parse_failure_not_aborting "2025-06-15" ⟨["1-2025-06-15"], zeroStats, [], []⟩
     ⟨⟨4, "Site D", "https://d.example", ["accessibility"]⟩,
      Fetch.ok ⟨"abc", "50", "40", "30", "70"⟩, Fetch.ok [], none⟩
     ⟨"abc", "50", "40", "30", "70"⟩ rfl rfl⟩

/-! ## C2: idempotence of the incremental sweep -/

/-- A site whose `dci/overview` fetch succeeds, so its record reaches the
writer. -/
def overviewOk (su : SiteUpstream) : Bool :=
  match su.overview with
  | Fetch.ok _ => true
  | Fetch.err _ => false

/-- The in-memory key the sweep computes for a site's record of the day. -/
def siteKey (su : SiteUpstream) (today : String) : String :=
  stringKey su.site.id today

theorem targetStep_counts (today : String) (su : SiteUpstream) (stats : Stats)
    (log : List ErrorLogEntry) :
    (targetStep today su stats log).2.1.inserted = stats.inserted ∧
    (targetStep today su stats log).2.1.skippedExisting = stats.skippedExisting ∧
    (targetStep today su stats log).2.1.processed = stats.processed := by
  unfold targetStep
  cases htv : su.targetHist with
  | err e => simp
  | ok items =>
    cases hsel : selectTodayTarget items today with
    | some entry => simp [hsel]
    | none => simp [hsel]

theorem insertScore_cases (dbErr : Option String) (record : ScoreRecord)
    (st : RunState) (hex : st.ex = fetchExistingRecords st.store) :
    ((insertScore dbErr record st).ex =
        fetchExistingRecords (insertScore dbErr record st).store) ∧
    (∀ k, k ∈ st.ex → k ∈ (insertScore dbErr record st).ex) ∧
    (dbErr = none →
      stringKey record.sid record.date ∈ (insertScore dbErr record st).ex ∧
      (insertScore dbErr record st).stats.inserted +
          (insertScore dbErr record st).stats.skippedExisting =
        st.stats.inserted + st.stats.skippedExisting + 1) ∧
    (stringKey record.sid record.date ∈ st.ex →
      insertScore dbErr record st =
        { st with stats := { st.stats with
            skippedExisting := st.stats.skippedExisting + 1 } }) := by
  by_cases hk : stringKey record.sid record.date ∈ st.ex
  · have hins : insertScore dbErr record st =
        { st with stats := { st.stats with
            skippedExisting := st.stats.skippedExisting + 1 } } := by
      unfold insertScore
      rw [if_pos hk]
    rw [hins]
    refine ⟨hex, fun k hkin => hkin, fun _ => ⟨hk, ?_⟩, fun _ => rfl⟩
    show st.stats.inserted + (st.stats.skippedExisting + 1) =
      st.stats.inserted + st.stats.skippedExisting + 1
    omega
  · cases dbErr with
    | some m =>
      have hins : insertScore (some m) record st =
          { st with
            stats := { st.stats with insertErrors := st.stats.insertErrors + 1 }
            log := st.log ++ [⟨some record.sid, some record.name, m, "ERROR"⟩] } := by
        unfold insertScore
        rw [if_neg hk]
      rw [hins]
      refine ⟨hex, fun k hkin => hkin, ?_, fun hmem => absurd hmem hk⟩
      intro hnone
      cases hnone
    | none =>
      have hnoc : ¬(st.store.any (fun x => x.sid = record.sid ∧ x.date = record.date)
          = true) := by
        intro hany
        rcases List.any_eq_true.mp hany with ⟨x, hxmem, hxp⟩
        simp only [decide_eq_true_eq] at hxp
        apply hk
        rw [hex]
        unfold fetchExistingRecords
        exact List.mem_map.mpr ⟨x, hxmem, by rw [hxp.1, hxp.2]⟩
      have hins : insertScore none record st =
          { st with
            store := st.store ++ [record]
            ex := st.ex ++ [stringKey record.sid record.date]
            stats := { st.stats with inserted := st.stats.inserted + 1 } } := by
        unfold insertScore
        rw [if_neg hk]
        simp only [insertOnConflict, if_neg hnoc]
        rfl
      rw [hins]
      refine ⟨?_, ?_, ?_, fun hmem => absurd hmem hk⟩
      · simp only [fetchExistingRecords, List.map_append, List.map_cons, List.map_nil]
        rw [hex]
        rfl
      · intro k hkin
        exact List.mem_append_left _ hkin
      · intro _
        refine ⟨List.mem_append_right _ (by simp), ?_⟩
        show st.stats.inserted + 1 + st.stats.skippedExisting =
          st.stats.inserted + st.stats.skippedExisting + 1
        omega

theorem processSite_err_eq (today : String) (st : RunState) (su : SiteUpstream)
    (e : String) (hov : su.overview = Fetch.err e) :
    processSite today st su =
      { st with
        stats := { st.stats with processed := st.stats.processed + 1 }
        log := st.log ++ [⟨some su.site.id, some su.site.site_name,
          "Approved site failed during processing: " ++ e, "WARNING"⟩] } := by
  unfold processSite
  rw [hov]

theorem processSite_ok_eq (today : String) (st : RunState) (su : SiteUpstream)
    (p : OverviewPayload) (hov : su.overview = Fetch.ok p) :
    processSite today st su =
      insertScore su.insertDb
        (buildRecord su.site p
          (targetStep today su
            { st.stats with processed := st.stats.processed + 1 } st.log).1 today)
        ⟨st.ex,
         (targetStep today su
           { st.stats with processed := st.stats.processed + 1 } st.log).2.1,
         st.store,
         (targetStep today su
           { st.stats with processed := st.stats.processed + 1 } st.log).2.2⟩ := by
  unfold processSite
  rw [hov]

theorem processSite_step (today : String) (st : RunState) (su : SiteUpstream)
    (hex : st.ex = fetchExistingRecords st.store) :
    ((processSite today st su).ex =
        fetchExistingRecords (processSite today st su).store) ∧
    (∀ k, k ∈ st.ex → k ∈ (processSite today st su).ex) ∧
    (overviewOk su = false →
        (processSite today st su).ex = st.ex ∧
        (processSite today st su).store = st.store ∧
        (processSite today st su).stats.inserted = st.stats.inserted ∧
        (processSite today st su).stats.skippedExisting = st.stats.skippedExisting) ∧
    (overviewOk su = true → su.insertDb = none →
        siteKey su today ∈ (processSite today st su).ex ∧
        (processSite today st su).stats.inserted +
            (processSite today st su).stats.skippedExisting =
          st.stats.inserted + st.stats.skippedExisting + 1) := by
  cases hov : su.overview with
  | err e =>
    rw [processSite_err_eq today st su e hov]
    refine ⟨hex, fun k hk => hk, fun _ => ⟨rfl, rfl, rfl, rfl⟩, ?_⟩
    intro hok
    rw [overviewOk, hov] at hok
    cases hok
  | ok p =>
    have hcounts := targetStep_counts today su
      { st.stats with processed := st.stats.processed + 1 } st.log
    rw [processSite_ok_eq today st su p hov]
    obtain ⟨ia, ib, ic, -⟩ := insertScore_cases su.insertDb
      (buildRecord su.site p
        (targetStep today su
          { st.stats with processed := st.stats.processed + 1 } st.log).1 today)
      ⟨st.ex,
       (targetStep today su
         { st.stats with processed := st.stats.processed + 1 } st.log).2.1,
       st.store,
       (targetStep today su
         { st.stats with processed := st.stats.processed + 1 } st.log).2.2⟩ hex
    refine ⟨ia, ib, ?_, ?_⟩
    · intro hfalse
      rw [overviewOk, hov] at hfalse
      cases hfalse
    · intro _ hdb
      obtain ⟨hmem, hcnt⟩ := ic hdb
      refine ⟨hmem, ?_⟩
      rw [hcnt]
      show (targetStep today su
          { st.stats with processed := st.stats.processed + 1 } st.log).2.1.inserted +
        (targetStep today su
          { st.stats with processed := st.stats.processed + 1 } st.log).2.1.skippedExisting
          + 1 = st.stats.inserted + st.stats.skippedExisting + 1
      rw [hcounts.1, hcounts.2.1]

theorem run1_fold (today : String) :
    ∀ (sites : List SiteUpstream) (st : RunState),
      st.ex = fetchExistingRecords st.store →
      ((sites.foldl (processSite today) st).ex =
          fetchExistingRecords (sites.foldl (processSite today) st).store) ∧
      (∀ k, k ∈ st.ex → k ∈ (sites.foldl (processSite today) st).ex) ∧
      (∀ su ∈ sites, overviewOk su = true → su.insertDb = none →
          siteKey su today ∈ (sites.foldl (processSite today) st).ex) ∧
      ((∀ su ∈ sites, su.insertDb = none) →
        (sites.foldl (processSite today) st).stats.inserted +
            (sites.foldl (processSite today) st).stats.skippedExisting =
          st.stats.inserted + st.stats.skippedExisting + sites.countP overviewOk) := by
  intro sites
  induction sites with
  | nil =>
    intro st hex
    exact ⟨hex, fun k hk => hk, by simp, by simp⟩
  | cons su rest ih =>
    intro st hex
    obtain ⟨ha, hb, hc, hd⟩ := processSite_step today st su hex
    obtain ⟨ra, rb, rc, rd⟩ := ih (processSite today st su) ha
    rw [List.foldl_cons]
    refine ⟨ra, fun k hk => rb k (hb k hk), ?_, ?_⟩
    · intro su2 hmem hok hdb
      rcases List.mem_cons.mp hmem with heq | hmem2
      · subst heq
        exact rb _ ((hd hok hdb).1)
      · exact rc su2 hmem2 hok hdb
    · intro hall
      have hallrest : ∀ su2 ∈ rest, su2.insertDb = none :=
        fun su2 h2 => hall su2 (List.mem_cons_of_mem _ h2)
      rw [rd hallrest]
      rw [List.countP_cons]
      by_cases hok : overviewOk su = true
      · have hcnt := (hd hok (hall su (List.mem_cons_self _ _))).2
        rw [hcnt]
        simp [hok]
        omega
      · have hfalse : overviewOk su = false := by
          cases h2 : overviewOk su
          · rfl
          · exact absurd h2 hok
        obtain ⟨-, -, hi, hs⟩ := hc hfalse
        rw [hi, hs]
        simp [hfalse]


theorem insertScore_mem_skip (dbErr : Option String) (record : ScoreRecord)
    (st : RunState) (hk : stringKey record.sid record.date ∈ st.ex) :
    insertScore dbErr record st =
      { st with stats := { st.stats with
          skippedExisting := st.stats.skippedExisting + 1 } } := by
  unfold insertScore
  rw [if_pos hk]

theorem run2_fold (today : String) :
    ∀ (sites : List SiteUpstream) (st : RunState),
      (∀ su ∈ sites, overviewOk su = true → siteKey su today ∈ st.ex) →
      ((sites.foldl (processSite today) st).ex = st.ex ∧
       (sites.foldl (processSite today) st).store = st.store ∧
       (sites.foldl (processSite today) st).stats.inserted = st.stats.inserted ∧
       (sites.foldl (processSite today) st).stats.skippedExisting =
         st.stats.skippedExisting + sites.countP overviewOk) := by
  intro sites
  induction sites with
  | nil =>
    intro st _
    exact ⟨rfl, rfl, rfl, by simp⟩
  | cons su rest ih =>
    intro st h
    rw [List.foldl_cons, List.countP_cons]
    cases hov : su.overview with
    | err e =>
      have hfalse : overviewOk su = false := by rw [overviewOk, hov]
      rw [processSite_err_eq today st su e hov]
      obtain ⟨ra, rb, rc, rd⟩ := ih
        { st with
          stats := { st.stats with processed := st.stats.processed + 1 }
          log := st.log ++ [⟨some su.site.id, some su.site.site_name,
            "Approved site failed during processing: " ++ e, "WARNING"⟩] }
        (fun su2 h2 hok2 => h su2 (List.mem_cons_of_mem _ h2) hok2)
      refine ⟨ra, rb, rc, ?_⟩
      rw [rd]
      simp [hfalse]
    | ok p =>
      have htrue : overviewOk su = true := by rw [overviewOk, hov]
      have hkey : siteKey su today ∈ st.ex := h su (List.mem_cons_self _ _) htrue
      have hcounts := targetStep_counts today su
        { st.stats with processed := st.stats.processed + 1 } st.log
      rw [processSite_ok_eq today st su p hov]
      rw [insertScore_mem_skip su.insertDb
        (buildRecord su.site p
          (targetStep today su
            { st.stats with processed := st.stats.processed + 1 } st.log).1 today)
        ⟨st.ex,
         (targetStep today su
           { st.stats with processed := st.stats.processed + 1 } st.log).2.1,
         st.store,
         (targetStep today su
           { st.stats with processed := st.stats.processed + 1 } st.log).2.2⟩ hkey]
      obtain ⟨ra, rb, rc, rd⟩ := ih
        { ex := st.ex
          stats := { (targetStep today su
              { st.stats with processed := st.stats.processed + 1 } st.log).2.1 with
            skippedExisting := (targetStep today su
              { st.stats with processed := st.stats.processed + 1 }
                st.log).2.1.skippedExisting + 1 }
          store := st.store
          log := (targetStep today su
            { st.stats with processed := st.stats.processed + 1 } st.log).2.2 }
        (fun su2 h2 hok2 => h su2 (List.mem_cons_of_mem _ h2) hok2)
      refine ⟨ra, rb, ?_, ?_⟩
      · rw [rc]
        exact hcounts.1
      · rw [rd]
        have hsk : (targetStep today su
            { st.stats with processed := st.stats.processed + 1 }
              st.log).2.1.skippedExisting = st.stats.skippedExisting := hcounts.2.1
        show (targetStep today su
            { st.stats with processed := st.stats.processed + 1 }
              st.log).2.1.skippedExisting + 1 + List.countP overviewOk rest =
          st.stats.skippedExisting +
            (List.countP overviewOk rest + if overviewOk su = true then 1 else 0)
        rw [hsk, if_pos htrue]
        omega

/-- C2 (amended): against an unchanged upstream and store (and a database that
accepts every insert), the second of two immediately consecutive incremental
sweeps makes zero new inserts, and its skipped-existing count equals the first
run's inserted count **plus** the first run's skipped-existing count.  (The
original claim, that it equals the first run's inserted count alone, fails as
soon as the store already held a record for the day before the first run.) -/
theorem c2_second_sweep_inserts_nothing (today : String) (items : List SiteUpstream)
    (store0 : List ScoreRecord) (log0 log1 : List ErrorLogEntry)
    (hdb : ∀ su ∈ items, su.insertDb = (none : Option String)) :
    (fetchAndInsertRecords today (Fetch.ok items)
        (fetchAndInsertRecords today (Fetch.ok items) store0 log0).2.store
        log1).2.stats.inserted = 0 ∧
    (fetchAndInsertRecords today (Fetch.ok items)
        (fetchAndInsertRecords today (Fetch.ok items) store0 log0).2.store
        log1).2.stats.skippedExisting =
      (fetchAndInsertRecords today (Fetch.ok items) store0 log0).2.stats.inserted +
        (fetchAndInsertRecords today (Fetch.ok items) store0 log0).2.stats.skippedExisting := by
  have hrun : ∀ (store : List ScoreRecord) (log : List ErrorLogEntry),
      (fetchAndInsertRecords today (Fetch.ok items) store log).2 =
        (items.filter (fun su => su.site.product.contains "accessibility")).foldl
          (processSite today)
          ⟨fetchExistingRecords store,
           { zeroStats with sitesPulled :=
              (items.filter (fun su => su.site.product.contains "accessibility")).length },
           store, log⟩ := by
    intro store log
    unfold fetchAndInsertRecords
    simp only [chunk20_foldl]
  have hdbf : ∀ su ∈ items.filter
      (fun su => su.site.product.contains "accessibility"), su.insertDb = none := by
    intro su hsu
    exact hdb su (List.mem_filter.mp hsu).1
  obtain ⟨f1a, f1b, f1c, f1d⟩ := run1_fold today
    (items.filter (fun su => su.site.product.contains "accessibility"))
    ⟨fetchExistingRecords store0,
     { zeroStats with sitesPulled :=
        (items.filter (fun su => su.site.product.contains "accessibility")).length },
     store0, log0⟩ rfl
  have hcov : ∀ su ∈ items.filter
      (fun su => su.site.product.contains "accessibility"),
      overviewOk su = true →
      siteKey su today ∈
        ((⟨fetchExistingRecords
            ((items.filter (fun su => su.site.product.contains "accessibility")).foldl
              (processSite today)
              ⟨fetchExistingRecords store0,
               { zeroStats with sitesPulled :=
                  (items.filter
                    (fun su => su.site.product.contains "accessibility")).length },
               store0, log0⟩).store,
          { zeroStats with sitesPulled :=
             (items.filter (fun su => su.site.product.contains "accessibility")).length },
          ((items.filter (fun su => su.site.product.contains "accessibility")).foldl
            (processSite today)
            ⟨fetchExistingRecords store0,
             { zeroStats with sitesPulled :=
                (items.filter
                  (fun su => su.site.product.contains "accessibility")).length },
             store0, log0⟩).store,
          log1⟩ : RunState)).ex := by
    intro su hsu hok
    show siteKey su today ∈ fetchExistingRecords
      ((items.filter (fun su => su.site.product.contains "accessibility")).foldl
        (processSite today)
        ⟨fetchExistingRecords store0,
         { zeroStats with sitesPulled :=
            (items.filter (fun su => su.site.product.contains "accessibility")).length },
         store0, log0⟩).store
    rw [← f1a]
    exact f1c su hsu hok (hdbf su hsu)
  obtain ⟨g1, g2, g3, g4⟩ := run2_fold today
    (items.filter (fun su => su.site.product.contains "accessibility"))
    ⟨fetchExistingRecords
        ((items.filter (fun su => su.site.product.contains "accessibility")).foldl
          (processSite today)
          ⟨fetchExistingRecords store0,
           { zeroStats with sitesPulled :=
              (items.filter (fun su => su.site.product.contains "accessibility")).length },
           store0, log0⟩).store,
     { zeroStats with sitesPulled :=
        (items.filter (fun su => su.site.product.contains "accessibility")).length },
     ((items.filter (fun su => su.site.product.contains "accessibility")).foldl
       (processSite today)
       ⟨fetchExistingRecords store0,
        { zeroStats with sitesPulled :=
           (items.filter (fun su => su.site.product.contains "accessibility")).length },
        store0, log0⟩).store,
     log1⟩ hcov
  rw [hrun store0 log0, hrun _ log1]
  constructor
  · rw [g3]
    rfl
  · rw [g4, f1d hdbf]
    simp [zeroStats]

/-- Witness for C2 at a concrete two-site upstream over an initially empty
store. -/
theorem c2_second_sweep_inserts_nothing_witness :
    (∀ su ∈ [(⟨⟨1, "Site A", "https://a.example", ["accessibility"]⟩,
        Fetch.ok ⟨"1", "2", "3", "4", "5"⟩, Fetch.ok [], none⟩ : SiteUpstream),
      ⟨⟨2, "Site B", "https://b.example", ["accessibility"]⟩,
        Fetch.ok ⟨"1", "2", "3", "4", "5"⟩, Fetch.ok [], none⟩],
      su.insertDb = (none : Option String)) ∧
    ((fetchAndInsertRecords "2025-06-15"
        (Fetch.ok [⟨⟨1, "Site A", "https://a.example", ["accessibility"]⟩,
            Fetch.ok ⟨"1", "2", "3", "4", "5"⟩, Fetch.ok [], none⟩,
          ⟨⟨2, "Site B", "https://b.example", ["accessibility"]⟩,
            Fetch.ok ⟨"1", "2", "3", "4", "5"⟩, Fetch.ok [], none⟩])
        (fetchAndInsertRecords "2025-06-15"
          (Fetch.ok [⟨⟨1, "Site A", "https://a.example", ["accessibility"]⟩,
              Fetch.ok ⟨"1", "2", "3", "4", "5"⟩, Fetch.ok [], none⟩,
            ⟨⟨2, "Site B", "https://b.example", ["accessibility"]⟩,
              Fetch.ok ⟨"1", "2", "3", "4", "5"⟩, Fetch.ok [], none⟩]) [] []).2.store
        []).2.stats.inserted = 0 ∧
     (fetchAndInsertRecords "2025-06-15"
        (Fetch.ok [⟨⟨1, "Site A", "https://a.example", ["accessibility"]⟩,
            Fetch.ok ⟨"1", "2", "3", "4", "5"⟩, Fetch.ok [], none⟩,
          ⟨⟨2, "Site B", "https://b.example", ["accessibility"]⟩,
            Fetch.ok ⟨"1", "2", "3", "4", "5"⟩, Fetch.ok [], none⟩])
        (fetchAndInsertRecords "2025-06-15"
          (Fetch.ok [⟨⟨1, "Site A", "https://a.example", ["accessibility"]⟩,
              Fetch.ok ⟨"1", "2", "3", "4", "5"⟩, Fetch.ok [], none⟩,
            ⟨⟨2, "Site B", "https://b.example", ["accessibility"]⟩,
              Fetch.ok ⟨"1", "2", "3", "4", "5"⟩, Fetch.ok [], none⟩]) [] []).2.store
        []).2.stats.skippedExisting =
      (fetchAndInsertRecords "2025-06-15"
        (Fetch.ok [⟨⟨1, "Site A", "https://a.example", ["accessibility"]⟩,
            Fetch.ok ⟨"1", "2", "3", "4", "5"⟩, Fetch.ok [], none⟩,
          ⟨⟨2, "Site B", "https://b.example", ["accessibility"]⟩,
            Fetch.ok ⟨"1", "2", "3", "4", "5"⟩, Fetch.ok [], none⟩]) [] []).2.stats.inserted +
        (fetchAndInsertRecords "2025-06-15"
          (Fetch.ok [⟨⟨1, "Site A", "https://a.example", ["accessibility"]⟩,
              Fetch.ok ⟨"1", "2", "3", "4", "5"⟩, Fetch.ok [], none⟩,
            ⟨⟨2, "Site B", "https://b.example", ["accessibility"]⟩,
              Fetch.ok ⟨"1", "2", "3", "4", "5"⟩, Fetch.ok [], none⟩]) [] []).2.stats.skippedExisting) :=
  ⟨by intro su hsu; fin_cases hsu <;> rfl,
   c2_second_sweep_inserts_nothing "2025-06-15"
     [⟨⟨1, "Site A", "https://a.example", ["accessibility"]⟩,
        Fetch.ok ⟨"1", "2", "3", "4", "5"⟩, Fetch.ok [], none⟩,
      ⟨⟨2, "Site B", "https://b.example", ["accessibility"]⟩,
        Fetch.ok ⟨"1", "2", "3", "4", "5"⟩, Fetch.ok [], none⟩] [] [] []
     (by intro su hsu; fin_cases hsu <;> rfl)⟩

/-- C2 counterexample to the claim as stated: with site A already persisted
for the day, run 1 gives inserted = 1 and skippedExisting = 1, and run 2 gives
skippedExisting = 2 ≠ 1 = run 1's inserted count, so the second run's
skipped-existing count does not equal the first run's inserted count (the
zero-new-inserts half does hold). -/
theorem c2_skipped_equals_inserted_counterexample :
    ¬((fetchAndInsertRecords "2025-06-15"
        (Fetch.ok [⟨⟨1, "Site A", "https://a.example", ["accessibility"]⟩,
            Fetch.ok ⟨"1", "2", "3", "4", "5"⟩, Fetch.ok [], none⟩,
          ⟨⟨2, "Site B", "https://b.example", ["accessibility"]⟩,
            Fetch.ok ⟨"1", "2", "3", "4", "5"⟩, Fetch.ok [], none⟩])
        (fetchAndInsertRecords "2025-06-15"
          (Fetch.ok [⟨⟨1, "Site A", "https://a.example", ["accessibility"]⟩,
              Fetch.ok ⟨"1", "2", "3", "4", "5"⟩, Fetch.ok [], none⟩,
            ⟨⟨2, "Site B", "https://b.example", ["accessibility"]⟩,
              Fetch.ok ⟨"1", "2", "3", "4", "5"⟩, Fetch.ok [], none⟩])
          [⟨1, "Site A", "https://a.example", some 1, some 2, some 3, some 4, some 5,
            none, "2025-06-15"⟩] []).2.store
        []).2.stats.inserted = 0 ∧
      (fetchAndInsertRecords "2025-06-15"
        (Fetch.ok [⟨⟨1, "Site A", "https://a.example", ["accessibility"]⟩,
            Fetch.ok ⟨"1", "2", "3", "4", "5"⟩, Fetch.ok [], none⟩,
          ⟨⟨2, "Site B", "https://b.example", ["accessibility"]⟩,
            Fetch.ok ⟨"1", "2", "3", "4", "5"⟩, Fetch.ok [], none⟩])
        (fetchAndInsertRecords "2025-06-15"
          (Fetch.ok [⟨⟨1, "Site A", "https://a.example", ["accessibility"]⟩,
              Fetch.ok ⟨"1", "2", "3", "4", "5"⟩, Fetch.ok [], none⟩,
            ⟨⟨2, "Site B", "https://b.example", ["accessibility"]⟩,
              Fetch.ok ⟨"1", "2", "3", "4", "5"⟩, Fetch.ok [], none⟩])
          [⟨1, "Site A", "https://a.example", some 1, some 2, some 3, some 4, some 5,
            none, "2025-06-15"⟩] []).2.store
        []).2.stats.skippedExisting =
      (fetchAndInsertRecords "2025-06-15"
        (Fetch.ok [⟨⟨1, "Site A", "https://a.example", ["accessibility"]⟩,
            Fetch.ok ⟨"1", "2", "3", "4", "5"⟩, Fetch.ok [], none⟩,
          ⟨⟨2, "Site B", "https://b.example", ["accessibility"]⟩,
            Fetch.ok ⟨"1", "2", "3", "4", "5"⟩, Fetch.ok [], none⟩])
        [⟨1, "Site A", "https://a.example", some 1, some 2, some 3, some 4, some 5,
          none, "2025-06-15"⟩] []).2.stats.inserted) := by
  decide

/-! ## C9: partial-failure isolation -/

/-- Componentwise addition of run statistics, used to factor the sweep's
counter increments out of the fold. -/
def addStats (s t : Stats) : Stats :=
  ⟨s.sitesPulled + t.sitesPulled, s.processed + t.processed, s.inserted + t.inserted,
   s.skippedExisting + t.skippedExisting, s.targetInfoNotes + t.targetInfoNotes,
   s.targetErrors + t.targetErrors, s.insertErrors + t.insertErrors⟩

theorem addStats_zero (s : Stats) : addStats s zeroStats = s := rfl

theorem addStats_assoc (a b c : Stats) :
    addStats (addStats a b) c = addStats a (addStats b c) := by
  simp [addStats, Nat.add_assoc]

theorem insertScore_shift (dbErr : Option String) (record : ScoreRecord)
    (ex : List String) (s : Stats) (store : List ScoreRecord)
    (l : List ErrorLogEntry) :
    insertScore dbErr record ⟨ex, s, store, l⟩ =
      ⟨(insertScore dbErr record ⟨ex, zeroStats, store, []⟩).ex,
       addStats s (insertScore dbErr record ⟨ex, zeroStats, store, []⟩).stats,
       (insertScore dbErr record ⟨ex, zeroStats, store, []⟩).store,
       l ++ (insertScore dbErr record ⟨ex, zeroStats, store, []⟩).log⟩ := by
  simp only [insertScore]
  by_cases hk : stringKey record.sid record.date ∈ ex
  · rw [if_pos hk, if_pos hk]
    simp [addStats, zeroStats]
  · rw [if_neg hk, if_neg hk]
    cases dbErr with
    | none =>
      by_cases hgt : (insertOnConflict record store).2 > 0
      · rw [if_pos hgt, if_pos hgt]
        simp [addStats, zeroStats]
      · rw [if_neg hgt, if_neg hgt]
        simp [addStats, zeroStats]
    | some m =>
      simp [addStats, zeroStats]

theorem targetStep_shift (today : String) (su : SiteUpstream) (stats : Stats)
    (log : List ErrorLogEntry) :
    (targetStep today su stats log).1 = (targetStep today su zeroStats []).1 ∧
    (targetStep today su stats log).2.1 =
      addStats stats (targetStep today su zeroStats []).2.1 ∧
    (targetStep today su stats log).2.2 =
      log ++ (targetStep today su zeroStats []).2.2 := by
  unfold targetStep
  cases htv : su.targetHist with
  | err e => simp [addStats, zeroStats]
  | ok items =>
    cases hsel : selectTodayTarget items today with
    | some entry => simp [hsel, addStats, zeroStats]
    | none => simp [hsel, addStats, zeroStats]

theorem processSite_err_eq2 (today : String) (ex : List String) (s : Stats)
    (store : List ScoreRecord) (l : List ErrorLogEntry) (su : SiteUpstream)
    (e : String) (hov : su.overview = Fetch.err e) :
    processSite today ⟨ex, s, store, l⟩ su =
      ⟨ex, { s with processed := s.processed + 1 },
       store, l ++ [⟨some su.site.id, some su.site.site_name,
         "Approved site failed during processing: " ++ e, "WARNING"⟩]⟩ := by
  unfold processSite
  rw [hov]

theorem processSite_ok_eq2 (today : String) (ex : List String) (s : Stats)
    (store : List ScoreRecord) (l : List ErrorLogEntry) (su : SiteUpstream)
    (p : OverviewPayload) (hov : su.overview = Fetch.ok p) :
    processSite today ⟨ex, s, store, l⟩ su =
      insertScore su.insertDb
        (buildRecord su.site p
          (targetStep today su { s with processed := s.processed + 1 } l).1 today)
        ⟨ex, (targetStep today su { s with processed := s.processed + 1 } l).2.1,
         store, (targetStep today su { s with processed := s.processed + 1 } l).2.2⟩ := by
  unfold processSite
  rw [hov]

theorem processSite_shift (today : String) (ex : List String) (s : Stats)
    (store : List ScoreRecord) (l : List ErrorLogEntry) (su : SiteUpstream) :
    processSite today ⟨ex, s, store, l⟩ su =
      ⟨(processSite today ⟨ex, zeroStats, store, []⟩ su).ex,
       addStats s (processSite today ⟨ex, zeroStats, store, []⟩ su).stats,
       (processSite today ⟨ex, zeroStats, store, []⟩ su).store,
       l ++ (processSite today ⟨ex, zeroStats, store, []⟩ su).log⟩ := by
  cases hov : su.overview with
  | err e =>
    rw [processSite_err_eq2 today ex s store l su e hov,
        processSite_err_eq2 today ex zeroStats store [] su e hov]
    simp [addStats, zeroStats]
  | ok p =>
    rw [processSite_ok_eq2 today ex s store l su p hov,
        processSite_ok_eq2 today ex zeroStats store [] su p hov]
    rw [(targetStep_shift today su { s with processed := s.processed + 1 } l).1,
        (targetStep_shift today su { s with processed := s.processed + 1 } l).2.1,
        (targetStep_shift today su { s with processed := s.processed + 1 } l).2.2,
        (targetStep_shift today su
          { zeroStats with processed := zeroStats.processed + 1 } []).1,
        (targetStep_shift today su
          { zeroStats with processed := zeroStats.processed + 1 } []).2.1,
        (targetStep_shift today su
          { zeroStats with processed := zeroStats.processed + 1 } []).2.2]
    rw [insertScore_shift su.insertDb _ ex
        (addStats { s with processed := s.processed + 1 }
          (targetStep today su zeroStats []).2.1)
        store (l ++ (targetStep today su zeroStats []).2.2),
      insertScore_shift su.insertDb _ ex
        (addStats { zeroStats with processed := zeroStats.processed + 1 }
          (targetStep today su zeroStats []).2.1)
        store ([] ++ (targetStep today su zeroStats []).2.2)]
    simp [addStats, zeroStats, List.append_assoc]
    omega

theorem zero_addStats (s : Stats) : addStats zeroStats s = s := by
  cases s
  simp [addStats, zeroStats]

theorem foldl_processSite_shift (today : String) :
    ∀ (sites : List SiteUpstream) (ex : List String) (s : Stats)
      (store : List ScoreRecord) (l : List ErrorLogEntry),
      sites.foldl (processSite today) ⟨ex, s, store, l⟩ =
        ⟨(sites.foldl (processSite today) ⟨ex, zeroStats, store, []⟩).ex,
         addStats s (sites.foldl (processSite today) ⟨ex, zeroStats, store, []⟩).stats,
         (sites.foldl (processSite today) ⟨ex, zeroStats, store, []⟩).store,
         l ++ (sites.foldl (processSite today) ⟨ex, zeroStats, store, []⟩).log⟩ := by
  intro sites
  induction sites with
  | nil =>
    intro ex s store l
    simp [addStats_zero]
  | cons su rest ih =>
    intro ex s store l
    rw [List.foldl_cons, List.foldl_cons]
    rw [processSite_shift today ex s store l su,
        processSite_shift today ex zeroStats store [] su]
    rw [zero_addStats (processSite today ⟨ex, zeroStats, store, []⟩ su).stats,
        List.nil_append (processSite today ⟨ex, zeroStats, store, []⟩ su).log]
    rw [ih (processSite today ⟨ex, zeroStats, store, []⟩ su).ex
          (addStats s (processSite today ⟨ex, zeroStats, store, []⟩ su).stats)
          (processSite today ⟨ex, zeroStats, store, []⟩ su).store
          (l ++ (processSite today ⟨ex, zeroStats, store, []⟩ su).log),
        ih (processSite today ⟨ex, zeroStats, store, []⟩ su).ex
          (processSite today ⟨ex, zeroStats, store, []⟩ su).stats
          (processSite today ⟨ex, zeroStats, store, []⟩ su).store
          (processSite today ⟨ex, zeroStats, store, []⟩ su).log]
    simp [addStats_assoc, List.append_assoc]

theorem fetchAndInsertRecords_ok_eq (today : String) (items : List SiteUpstream)
    (store : List ScoreRecord) (log : List ErrorLogEntry) :
    (fetchAndInsertRecords today (Fetch.ok items) store log).2 =
      (items.filter (fun su => su.site.product.contains "accessibility")).foldl
        (processSite today)
        ⟨fetchExistingRecords store,
         { zeroStats with sitesPulled :=
            (items.filter (fun su => su.site.product.contains "accessibility")).length },
         store, log⟩ := by
  unfold fetchAndInsertRecords
  simp only [chunk20_foldl]

theorem processSite_err_eq3 (today : String) (ex : List String) (s : Stats)
    (store : List ScoreRecord) (l : List ErrorLogEntry) (su : SiteUpstream)
    (e : String) (hov : su.overview = Fetch.err e) :
    processSite today ⟨ex, s, store, l⟩ su =
      ⟨ex, addStats s ⟨0, 1, 0, 0, 0, 0, 0⟩,
       store, l ++ [⟨some su.site.id, some su.site.site_name,
         "Approved site failed during processing: " ++ e, "WARNING"⟩]⟩ := by
  unfold processSite
  rw [hov]
  rfl

theorem foldl_err_site_decomp (today : String) (preF postF : List SiteUpstream)
    (su : SiteUpstream) (e : String) (hov : su.overview = Fetch.err e)
    (ex0 : List String) (s1 s2 : Stats) (store0 : List ScoreRecord)
    (log1 log2 : List ErrorLogEntry) :
    ((preF ++ su :: postF).foldl (processSite today) ⟨ex0, s1, store0, log1⟩).store =
      ((preF ++ postF).foldl (processSite today) ⟨ex0, s2, store0, log2⟩).store ∧
    ((preF ++ su :: postF).foldl (processSite today) ⟨ex0, s1, store0, log1⟩).ex =
      ((preF ++ postF).foldl (processSite today) ⟨ex0, s2, store0, log2⟩).ex ∧
    ((preF ++ su :: postF).foldl (processSite today)
        ⟨ex0, s1, store0, log1⟩).stats.inserted + s2.inserted =
      ((preF ++ postF).foldl (processSite today)
        ⟨ex0, s2, store0, log2⟩).stats.inserted + s1.inserted ∧
    ((preF ++ su :: postF).foldl (processSite today)
        ⟨ex0, s1, store0, log1⟩).stats.skippedExisting + s2.skippedExisting =
      ((preF ++ postF).foldl (processSite today)
        ⟨ex0, s2, store0, log2⟩).stats.skippedExisting + s1.skippedExisting ∧
    ((preF ++ su :: postF).foldl (processSite today)
        ⟨ex0, s1, store0, log1⟩).stats.processed + s2.processed =
      ((preF ++ postF).foldl (processSite today)
        ⟨ex0, s2, store0, log2⟩).stats.processed + s1.processed + 1 ∧
    (⟨some su.site.id, some su.site.site_name,
        "Approved site failed during processing: " ++ e, "WARNING"⟩ : ErrorLogEntry) ∈
      ((preF ++ su :: postF).foldl (processSite today) ⟨ex0, s1, store0, log1⟩).log := by
  rw [List.foldl_append, List.foldl_append, List.foldl_cons]
  rw [foldl_processSite_shift today preF ex0 s1 store0 log1,
      foldl_processSite_shift today preF ex0 s2 store0 log2]
  rw [processSite_err_eq3 today
      (preF.foldl (processSite today) ⟨ex0, zeroStats, store0, []⟩).ex
      (addStats s1 (preF.foldl (processSite today) ⟨ex0, zeroStats, store0, []⟩).stats)
      (preF.foldl (processSite today) ⟨ex0, zeroStats, store0, []⟩).store
      (log1 ++ (preF.foldl (processSite today) ⟨ex0, zeroStats, store0, []⟩).log)
      su e hov]
  rw [foldl_processSite_shift today postF
      (preF.foldl (processSite today) ⟨ex0, zeroStats, store0, []⟩).ex
      (addStats
        (addStats s1 (preF.foldl (processSite today) ⟨ex0, zeroStats, store0, []⟩).stats)
        ⟨0, 1, 0, 0, 0, 0, 0⟩)
      (preF.foldl (processSite today) ⟨ex0, zeroStats, store0, []⟩).store
      ((log1 ++ (preF.foldl (processSite today) ⟨ex0, zeroStats, store0, []⟩).log) ++
        [ErrorLogEntry.mk (some su.site.id) (some su.site.site_name)
          ("Approved site failed during processing: " ++ e) "WARNING"]),
    foldl_processSite_shift today postF
      (preF.foldl (processSite today) ⟨ex0, zeroStats, store0, []⟩).ex
      (addStats s2 (preF.foldl (processSite today) ⟨ex0, zeroStats, store0, []⟩).stats)
      (preF.foldl (processSite today) ⟨ex0, zeroStats, store0, []⟩).store
      (log2 ++ (preF.foldl (processSite today) ⟨ex0, zeroStats, store0, []⟩).log)]
  refine ⟨rfl, rfl, ?_, ?_, ?_, ?_⟩
  · simp [addStats]
    omega
  · simp [addStats]
    omega
  · simp [addStats]
    omega
  · simp

/-- Model of the index-load query `SELECT sid, date FROM ada_scores` issued by
`fetchExistingRecords` in `part_002` (lines 82–85): the `pool.query` there has
no try/catch, so the call either yields the key set or rejects with the
database error message (`exDb = some m`). -/
def fetchExistingRecordsQuery (exDb : Option String) (store : List ScoreRecord) :
    Except String (List String) :=
  match exDb with
  | none => Except.ok (fetchExistingRecords store)
  | some m => Except.error m

/-- Model of `fetchAndInsertRecords` (`part_002`) including the fallible
existing-record index load.  The load is awaited *before* the try block, so
its failure rejects the whole sweep at once — without even the General API
Error log entry; on a successful load the sweep proceeds as
`fetchAndInsertRecords`. -/
def fetchAndInsertRecordsFull (today : String) (exDb : Option String)
    (dir : Fetch (List SiteUpstream)) (store : List ScoreRecord)
    (log : List ErrorLogEntry) : Except String Stats × RunState :=
  match fetchExistingRecordsQuery exDb store with
  | Except.error m => (Except.error m, ⟨[], zeroStats, store, log⟩)
  | Except.ok _ => fetchAndInsertRecords today dir store log

theorem fetchAndInsertRecordsFull_none_eq (today : String)
    (dir : Fetch (List SiteUpstream)) (store : List ScoreRecord)
    (log : List ErrorLogEntry) :
    fetchAndInsertRecordsFull today none dir store log =
      fetchAndInsertRecords today dir store log := rfl

/-- C9 counterexample: a directory-listing failure is not the only fatal path
of the sweep.  In `part_002` the existing-record index load is not wrapped in
any try/catch and is awaited before the try block, so a database failure
there rejects the whole sweep even though the directory listing succeeds —
and no error-log entry is written for it. -/
theorem c9_index_load_failure_is_fatal_counterexample :
    (fetchAndInsertRecordsFull "2025-06-15" (some "index query failed")
        (Fetch.ok [⟨⟨2, "Site B", "https://b.example", ["accessibility"]⟩,
          Fetch.ok ⟨"1", "2", "3", "4", "5"⟩, Fetch.ok [], none⟩]) [] []).1 =
      Except.error "index query failed" ∧
    (fetchAndInsertRecordsFull "2025-06-15" (some "index query failed")
        (Fetch.ok [⟨⟨2, "Site B", "https://b.example", ["accessibility"]⟩,
          Fetch.ok ⟨"1", "2", "3", "4", "5"⟩, Fetch.ok [], none⟩]) [] []).2.log =
      ([] : List ErrorLogEntry) :=
  ⟨rfl, rfl⟩

/-- C9 (amended): during one incremental sweep the fatal paths are exactly a
directory-listing failure (logged as a General API Error and rethrown) and a
failure of the initial existing-record index load (awaited outside the try
block, so fatal without any log entry).  Any single site's failure — such as
an overview-fetch error — is caught at the site boundary: the site is still
counted as processed and a WARNING entry is logged for it, while the
remaining sites — in the same batch and in later batches — are processed
exactly as in a run without the failing site: same final store, same inserted
count, same skipped-existing count. -/
theorem c9_fatal_paths_and_isolation :
    (∀ (today m : String) (dir : Fetch (List SiteUpstream))
        (store : List ScoreRecord) (log : List ErrorLogEntry),
        fetchAndInsertRecordsFull today (some m) dir store log =
          (Except.error m, ⟨[], zeroStats, store, log⟩)) ∧
    (∀ (today e : String) (store : List ScoreRecord) (log : List ErrorLogEntry),
        fetchAndInsertRecordsFull today none (Fetch.err e) store log =
          (Except.error e,
           ⟨fetchExistingRecords store, zeroStats, store,
            log ++ [⟨none, some "General API Error", e, "ERROR"⟩]⟩)) ∧
    (∀ (today e : String) (pre post : List SiteUpstream) (su : SiteUpstream)
        (store : List ScoreRecord) (log : List ErrorLogEntry),
        su.overview = Fetch.err e →
        su.site.product.contains "accessibility" = true →
        ((fetchAndInsertRecordsFull today none
            (Fetch.ok (pre ++ su :: post)) store log).2.store =
          (fetchAndInsertRecordsFull today none
            (Fetch.ok (pre ++ post)) store log).2.store) ∧
        ((fetchAndInsertRecordsFull today none
            (Fetch.ok (pre ++ su :: post)) store log).2.stats.inserted =
          (fetchAndInsertRecordsFull today none
            (Fetch.ok (pre ++ post)) store log).2.stats.inserted) ∧
        ((fetchAndInsertRecordsFull today none
            (Fetch.ok (pre ++ su :: post)) store log).2.stats.skippedExisting =
          (fetchAndInsertRecordsFull today none
            (Fetch.ok (pre ++ post)) store log).2.stats.skippedExisting) ∧
        ((fetchAndInsertRecordsFull today none
            (Fetch.ok (pre ++ su :: post)) store log).2.stats.processed =
          (fetchAndInsertRecordsFull today none
            (Fetch.ok (pre ++ post)) store log).2.stats.processed + 1) ∧
        ((⟨some su.site.id, some su.site.site_name,
            "Approved site failed during processing: " ++ e, "WARNING"⟩ : ErrorLogEntry) ∈
          (fetchAndInsertRecordsFull today none
            (Fetch.ok (pre ++ su :: post)) store log).2.log)) := by
  refine ⟨?_, ?_, ?_⟩
  · intro today m dir store log
    rfl
  · intro today e store log
    rfl
  · intro today e pre post su store log hov hacc
    simp only [fetchAndInsertRecordsFull_none_eq]
    simp only [fetchAndInsertRecords_ok_eq]
    simp only [List.filter_append, List.filter_cons, hacc, if_true]
    obtain ⟨d1, -, d3, d4, d5, d6⟩ := foldl_err_site_decomp today
      (pre.filter (fun su2 => su2.site.product.contains "accessibility"))
      (post.filter (fun su2 => su2.site.product.contains "accessibility"))
      su e hov (fetchExistingRecords store)
      { zeroStats with sitesPulled :=
          (pre.filter (fun su2 => su2.site.product.contains "accessibility") ++
            su :: post.filter (fun su2 => su2.site.product.contains "accessibility")).length }
      { zeroStats with sitesPulled :=
          (pre.filter (fun su2 => su2.site.product.contains "accessibility") ++
            post.filter (fun su2 => su2.site.product.contains "accessibility")).length }
      store log log
    simp only [zeroStats] at d3 d4 d5
    simp only [Nat.add_zero] at d3 d4 d5
    exact ⟨d1, d3, d4, d5, d6⟩

/-- Witness for C9 (amended): a concrete run where the first site's overview
fetch throws and a second site succeeds. -/
theorem c9_fatal_paths_and_isolation_witness :
    ((⟨⟨9, "Bad Site", "https://bad.example", ["accessibility"]⟩,
        Fetch.err "boom", Fetch.ok [], none⟩ : SiteUpstream).overview =
      Fetch.err "boom") ∧
    ((⟨⟨9, "Bad Site", "https://bad.example", ["accessibility"]⟩,
        Fetch.err "boom", Fetch.ok [], none⟩ : SiteUpstream).site.product.contains
        "accessibility" = true) ∧
    (((fetchAndInsertRecordsFull "2025-06-15" none
        (Fetch.ok ([] ++ (⟨⟨9, "Bad Site", "https://bad.example", ["accessibility"]⟩,
            Fetch.err "boom", Fetch.ok [], none⟩ : SiteUpstream) ::
          [⟨⟨2, "Site B", "https://b.example", ["accessibility"]⟩,
            Fetch.ok ⟨"1", "2", "3", "4", "5"⟩, Fetch.ok [], none⟩])) [] []).2.store =
      (fetchAndInsertRecordsFull "2025-06-15" none
        (Fetch.ok ([] ++ [⟨⟨2, "Site B", "https://b.example", ["accessibility"]⟩,
            Fetch.ok ⟨"1", "2", "3", "4", "5"⟩, Fetch.ok [], none⟩])) [] []).2.store) ∧
    ((fetchAndInsertRecordsFull "2025-06-15" none
        (Fetch.ok ([] ++ (⟨⟨9, "Bad Site", "https://bad.example", ["accessibility"]⟩,
            Fetch.err "boom", Fetch.ok [], none⟩ : SiteUpstream) ::
          [⟨⟨2, "Site B", "https://b.example", ["accessibility"]⟩,
            Fetch.ok ⟨"1", "2", "3", "4", "5"⟩, Fetch.ok [], none⟩])) [] []).2.stats.inserted =
      (fetchAndInsertRecordsFull "2025-06-15" none
        (Fetch.ok ([] ++ [⟨⟨2, "Site B", "https://b.example", ["accessibility"]⟩,
            Fetch.ok ⟨"1", "2", "3", "4", "5"⟩, Fetch.ok [], none⟩])) [] []).2.stats.inserted) ∧
    ((fetchAndInsertRecordsFull "2025-06-15" none
        (Fetch.ok ([] ++ (⟨⟨9, "Bad Site", "https://bad.example", ["accessibility"]⟩,
            Fetch.err "boom", Fetch.ok [], none⟩ : SiteUpstream) ::
          [⟨⟨2, "Site B", "https://b.example", ["accessibility"]⟩,
            Fetch.ok ⟨"1", "2", "3", "4", "5"⟩,
            Fetch.ok [], none⟩])) [] []).2.stats.skippedExisting =
      (fetchAndInsertRecordsFull "2025-06-15" none
        (Fetch.ok ([] ++ [⟨⟨2, "Site B", "https://b.example", ["accessibility"]⟩,
            Fetch.ok ⟨"1", "2", "3", "4", "5"⟩,
            Fetch.ok [], none⟩])) [] []).2.stats.skippedExisting) ∧
    ((fetchAndInsertRecordsFull "2025-06-15" none
        (Fetch.ok ([] ++ (⟨⟨9, "Bad Site", "https://bad.example", ["accessibility"]⟩,
            Fetch.err "boom", Fetch.ok [], none⟩ : SiteUpstream) ::
          [⟨⟨2, "Site B", "https://b.example", ["accessibility"]⟩,
            Fetch.ok ⟨"1", "2", "3", "4", "5"⟩, Fetch.ok [], none⟩])) [] []).2.stats.processed =
      (fetchAndInsertRecordsFull "2025-06-15" none
        (Fetch.ok ([] ++ [⟨⟨2, "Site B", "https://b.example", ["accessibility"]⟩,
            Fetch.ok ⟨"1", "2", "3", "4", "5"⟩,
            Fetch.ok [], none⟩])) [] []).2.stats.processed + 1) ∧
    ((⟨some 9, some "Bad Site", "Approved site failed during processing: " ++ "boom",
        "WARNING"⟩ : ErrorLogEntry) ∈
      (fetchAndInsertRecordsFull "2025-06-15" none
        (Fetch.ok ([] ++ (⟨⟨9, "Bad Site", "https://bad.example", ["accessibility"]⟩,
            Fetch.err "boom", Fetch.ok [], none⟩ : SiteUpstream) ::
          [⟨⟨2, "Site B", "https://b.example", ["accessibility"]⟩,
            Fetch.ok ⟨"1", "2", "3", "4", "5"⟩, Fetch.ok [], none⟩])) [] []).2.log)) :=
  ⟨rfl, rfl,
   c9_fatal_paths_and_isolation.2.2 "2025-06-15" "boom" []
     [⟨⟨2, "Site B", "https://b.example", ["accessibility"]⟩,
       Fetch.ok ⟨"1", "2", "3", "4", "5"⟩, Fetch.ok [], none⟩]
     ⟨⟨9, "Bad Site", "https://bad.example", ["accessibility"]⟩,
       Fetch.err "boom", Fetch.ok [], none⟩ [] [] rfl rfl⟩
